import Mathlib

/-!
# Verification of the portfolio backend (`main.py`, `schemas.py`)

A shallow embedding of the portfolio backend: a FastAPI application exposing
project CRUD over a document store, a contact-form endpoint, a music
"now playing" proxy and a diagnostics endpoint.  Python strings that the code
inspects character by character are modelled as `List Char`; the document
store client (`database.py`, not part of the sources) is modelled from the
spec where noted.
-/

/-- Python strings, modelled as lists of characters. -/
abbrev Str := List Char

/-- `s.lower()` — Python string lowercasing (the code only compares against
the ASCII literal `"bearer "`, so per-character `Char.toLower` is faithful). -/
def pyLower (s : Str) : Str := s.map Char.toLower

/-- `s.startswith(p)` — Python `str.startswith`. -/
def startsWithL : Str → Str → Bool
  | _, [] => true
  | [], _ :: _ => false
  | c :: s, p :: ps => c == p && startsWithL s ps

/-- The tail component of Python `s.split(" ", 1)`: everything after the first
space of `s`.  `require_admin` only evaluates this under a guard that
guarantees `s` contains a space. -/
def splitOnceRest : Str → Str
  | [] => []
  | c :: cs => if c = ' ' then cs else splitOnceRest cs

/-- The literal `"bearer "` that `require_admin` compares against. -/
def bearerLit : Str := ['b', 'e', 'a', 'r', 'e', 'r', ' ']

/-- The local variable `token` of `require_admin` (main.py lines 101-103):
starts as `""`, and is set to `authorization.split(" ", 1)[1]` when the header
is truthy (non-absent, non-empty) and its lowercasing starts with
`"bearer "`. -/
def adminTokenOf : Option Str → Str
  | none => []
  | some a =>
    if !a.isEmpty && startsWithL (pyLower a) bearerLit then splitOnceRest a
    else []

/-- `require_admin` (main.py lines 100-105): returns `true` when the request is
authorized, i.e. when the Python code does not raise its 401.  The code raises
when `not ADMIN_TOKEN or token != ADMIN_TOKEN`. -/
def require_admin (ADMIN_TOKEN : Str) (authorization : Option Str) : Bool :=
  !ADMIN_TOKEN.isEmpty && adminTokenOf authorization == ADMIN_TOKEN

/-- `schemas.Project` (schemas.py lines 19-30): the project collection schema.
`order` is an `int` used only as a sort key, modelled as `Int`. -/
structure Project where
  name : String
  description : String
  stack : List String
  github : Option String
  live : Option String
  featured : Bool
  order : Int
deriving DecidableEq, Repr

/-- `schemas.Message` (schemas.py lines 32-39).  The email is inspected
character-wise by validation, so it is a `Str`. -/
structure Message where
  name : String
  email : Str
  message : String
deriving DecidableEq, Repr

/-- Modelled from the spec: the document store (accessed through the missing
`database.py` client) holds the `project` and `message` collections as
insertion-ordered sequences of documents, each carrying a store-assigned
unique identifier (modelled as the `Nat` drawn from `nextId`). -/
structure Store where
  projects : List (Nat × Project)
  messages : List (Nat × Message)
  nextId : Nat
deriving DecidableEq, Repr

/-- Modelled from the spec: `create_document("project", doc)` from the missing
store client inserts the document at the end of the collection and returns its
newly assigned identifier. -/
def create_document_project (s : Store) (p : Project) : Store × Nat :=
  ({ s with projects := s.projects ++ [(s.nextId, p)], nextId := s.nextId + 1 },
   s.nextId)

/-- Modelled from the spec: `create_document("message", doc)`, as above for the
`message` collection. -/
def create_document_message (s : Store) (m : Message) : Store × Nat :=
  ({ s with messages := s.messages ++ [(s.nextId, m)], nextId := s.nextId + 1 },
   s.nextId)

/-- First entry of `SEED_PROJECTS` (main.py lines 55-62).  The dict omits
`live`, so the schema default `None` applies; likewise below. -/
def seedSarepay : Project :=
  { name := "Sarepay",
    description := "Multi-tenant payment processing system for merchants.",
    stack := ["PHP", "Laravel", "MySQL", "Redis", "Docker", "AWS"],
    github := some "https://github.com/devwaleh/sarepay", live := none,
    featured := true, order := 1 }

/-- Second entry of `SEED_PROJECTS` (main.py lines 63-70). -/
def seedPiper : Project :=
  { name := "Piper Backoffice",
    description := "Admin dashboard for transaction monitoring and settlements.",
    stack := ["Laravel", "MySQL", "Redis", "Tailwind"],
    github := some "https://github.com/devwaleh/piper-backoffice", live := none,
    featured := true, order := 2 }

/-- Third entry of `SEED_PROJECTS` (main.py lines 71-78). -/
def seedGridman : Project :=
  { name := "Gridman",
    description := "Distributed microservice for real-time wallet transactions.",
    stack := ["Node.js", "Express", "MongoDB", "Docker", "Microservices"],
    github := some "https://github.com/devwaleh/gridman", live := none,
    featured := false, order := 3 }

/-- Fourth entry of `SEED_PROJECTS` (main.py lines 79-86). -/
def seedMonitraka : Project :=
  { name := "Monitraka",
    description := "AI-powered transaction anomaly detector.",
    stack := ["Python", "FastAPI", "Scikit-learn", "Redis"],
    github := some "https://github.com/devwaleh/monitraka", live := none,
    featured := false, order := 4 }

/-- `SEED_PROJECTS` (main.py lines 54-87). -/
def SEED_PROJECTS : List Project :=
  [seedSarepay, seedPiper, seedGridman, seedMonitraka]

/-- The body of `ensure_seed_projects` once the handle is known present:
inserts every seed project when `count_documents({})` over the `project`
collection is zero. -/
def seedStore (s : Store) : Store :=
  if s.projects.length = 0 then
    SEED_PROJECTS.foldl (fun st p => (create_document_project st p).1) s
  else s

/-- `ensure_seed_projects` (main.py lines 89-95): no-op when the store handle
is `None`; otherwise runs the count-then-insert seeding. -/
def ensure_seed_projects : Option Store → Option Store
  | none => none
  | some s => some (seedStore s)

/-- Modelled from the spec: the store's `find({}).sort("order", 1)` returns
documents ascending by `order` with ties in insertion order (a stable sort,
realised as insertion sort). This inserts a document into an already sorted
run, before the first document whose `order` is not smaller. -/
def insertByOrder (a : Nat × Project) :
    List (Nat × Project) → List (Nat × Project)
  | [] => [a]
  | b :: l => if a.2.order ≤ b.2.order then a :: b :: l else b :: insertByOrder a l

/-- Modelled from the spec: the stable ascending sort by `order` used by
`find({}).sort("order", 1)`. -/
def sortByOrder : List (Nat × Project) → List (Nat × Project)
  | [] => []
  | a :: l => insertByOrder a (sortByOrder l)

/-- `ProjectOut` (main.py lines 35-46): the listing response model; `_id` is
rendered under the alias `id`. -/
structure ProjectOut where
  id : Nat
  name : String
  description : String
  stack : List String
  github : Option String
  live : Option String
  featured : Bool
  order : Int
deriving DecidableEq, Repr

/-- `ProjectOut(**i)` applied to a stored document. -/
def toProjectOut : Nat × Project → ProjectOut
  | (i, p) =>
    { id := i, name := p.name, description := p.description, stack := p.stack,
      github := p.github, live := p.live, featured := p.featured,
      order := p.order }

/-- The HTTP error outcomes of the endpoints: 401, 400, 404, the framework's
422 validation rejection, and an uncaught Python exception (HTTP 500). -/
inductive ApiError where
  | unauthorized
  | badRequest
  | notFound
  | validation
  | internalError
deriving DecidableEq, Repr

deriving instance DecidableEq for Except

/-- `list_projects` (main.py lines 112-116): seeds, then reads
`db["project"]`.  When the handle is `None` the subscript raises a
`TypeError` (an uncaught exception, HTTP 500): `list_projects` has no
`db is None` guard. -/
def list_projects (dbO : Option Store) :
    Except ApiError (Store × List ProjectOut) :=
  match ensure_seed_projects dbO with
  | none => Except.error ApiError.internalError
  | some s => Except.ok (s, (sortByOrder s.projects).map toProjectOut)

/-- A hexadecimal digit. -/
def isHexChar (c : Char) : Bool :=
  c.isDigit || ('a' ≤ c && c ≤ 'f') || ('A' ≤ c && c ≤ 'F')

/-- The numeric value of a hexadecimal digit (0 on other characters). -/
def hexVal (c : Char) : Nat :=
  if c.isDigit then c.toNat - 48
  else if 'a' ≤ c && c ≤ 'f' then c.toNat - 87
  else if 'A' ≤ c && c ≤ 'F' then c.toNat - 55
  else 0

/-- `bson.ObjectId.is_valid` on a string (external `bson` library, modelled
from the spec: "syntactically a legal store identifier"): a 24-character
hexadecimal string. -/
def objectId_is_valid (s : Str) : Bool :=
  s.length == 24 && s.all isHexChar

/-- Modelled from the spec: `ObjectId(project_id)` — the numeric value of the
24-character hex string, case-insensitive; store lookups compare these
values. -/
def objectIdOfHex (s : Str) : Nat :=
  s.foldl (fun acc c => 16 * acc + hexVal c) 0

/-- Modelled from the spec: the store's
`update_one({"_id": oid}, {"$set": fields})` updates the first document whose
identifier is `oid`; documents carry exactly the schema fields, so setting all
of them replaces the document's fields wholesale.  Returns the new collection
and `matched_count`. -/
def update_one (ps : List (Nat × Project)) (oid : Nat) (p : Project) :
    List (Nat × Project) × Nat :=
  match ps with
  | [] => ([], 0)
  | (i, q) :: rest =>
    if i = oid then ((i, p) :: rest, 1)
    else
      let r := update_one rest oid p
      ((i, q) :: r.1, r.2)

/-- Modelled from the spec: the store's `delete_one({"_id": oid})` removes the
first document whose identifier is `oid`.  Returns the new collection and
`deleted_count`. -/
def delete_one (ps : List (Nat × Project)) (oid : Nat) :
    List (Nat × Project) × Nat :=
  match ps with
  | [] => ([], 0)
  | (i, q) :: rest =>
    if i = oid then (rest, 1)
    else
      let r := delete_one rest oid
      ((i, q) :: r.1, r.2)

/-- `create_project` (main.py lines 118-121): the `require_admin` dependency
runs before the handler; on success the payload is inserted and the new id
returned. -/
def create_project (t : Str) (auth : Option Str) (p : Project) (s : Store) :
    Except ApiError (Store × Nat) :=
  if require_admin t auth then
    let r := create_document_project s p
    Except.ok (r.1, r.2)
  else Except.error ApiError.unauthorized

/-- `update_project` (main.py lines 123-130): gate dependency first, then the
id validity check (400), then `update_one` with a 404 when nothing matched. -/
def update_project (t : Str) (auth : Option Str) (project_id : Str)
    (p : Project) (s : Store) : Except ApiError (Store × Bool) :=
  if require_admin t auth then
    if objectId_is_valid project_id then
      let r := update_one s.projects (objectIdOfHex project_id) p
      if r.2 = 0 then Except.error ApiError.notFound
      else Except.ok ({ s with projects := r.1 }, true)
    else Except.error ApiError.badRequest
  else Except.error ApiError.unauthorized

/-- `delete_project` (main.py lines 132-139): gate dependency first, then the
id validity check (400), then `delete_one` with a 404 when nothing was
deleted. -/
def delete_project (t : Str) (auth : Option Str) (project_id : Str)
    (s : Store) : Except ApiError (Store × Bool) :=
  if require_admin t auth then
    if objectId_is_valid project_id then
      let r := delete_one s.projects (objectIdOfHex project_id)
      if r.2 = 0 then Except.error ApiError.notFound
      else Except.ok ({ s with projects := r.1 }, true)
    else Except.error ApiError.badRequest
  else Except.error ApiError.unauthorized

/-- The store state after an endpoint call: errors leave the store as it
was. -/
def resultStore {β : Type} (r : Except ApiError (Store × β)) (s : Store) :
    Store :=
  match r with
  | Except.ok x => x.1
  | Except.error _ => s

/-- The decimal digits of a natural number. -/
def natStr (n : Nat) : Str := (Nat.repr n).data

/-- Left-pad a number with zeros to `k` digits. -/
def padZeros (k : Nat) (n : Nat) : Str :=
  List.replicate (k - (natStr n).length) '0' ++ natStr n

/-- A naive UTC datetime as produced by `datetime.utcnow()`. -/
structure PyDateTime where
  year : Nat
  month : Nat
  day : Nat
  hour : Nat
  minute : Nat
  second : Nat
  microsecond : Nat
deriving DecidableEq, Repr

/-- Modelled from the spec: `datetime.isoformat()` (Python standard library) —
the ISO-8601 rendering `YYYY-MM-DDTHH:MM:SS.ffffff`. -/
def isoformat (d : PyDateTime) : Str :=
  padZeros 4 d.year ++ '-' :: padZeros 2 d.month ++ '-' :: padZeros 2 d.day ++
    'T' :: padZeros 2 d.hour ++ ':' :: padZeros 2 d.minute ++
    ':' :: padZeros 2 d.second ++ '.' :: padZeros 6 d.microsecond

/-- Modelled from the spec: the email-syntax validation the framework's
`EmailStr` performs at the API boundary (external `pydantic`/`email-validator`
code, `ContactIn` at main.py lines 48-51): exactly one `@`, a non-empty local
part, and a non-empty domain containing a dot. -/
def emailValid (e : Str) : Bool :=
  e.count '@' == 1 &&
    !(e.takeWhile (· ≠ '@')).isEmpty &&
    !((e.dropWhile (· ≠ '@')).drop 1).isEmpty &&
    ((e.dropWhile (· ≠ '@')).drop 1).contains '.'

/-- The contact acknowledgement body (main.py line 144). -/
structure ContactResp where
  ok : Bool
  received_at : Str
deriving DecidableEq, Repr

/-- `contact` (main.py lines 141-144): the framework validates the payload
against `ContactIn` (rejecting invalid emails with a 422 before the handler
runs); the handler persists a `Message` and acknowledges with
`datetime.utcnow().isoformat() + "Z"`. -/
def contact (s : Store) (now : PyDateTime) (name : String) (email : Str)
    (message : String) : Except ApiError (Store × ContactResp) :=
  if emailValid email then
    let r := create_document_message s
      { name := name, email := email, message := message }
    Except.ok (r.1, { ok := true, received_at := isoformat now ++ ['Z'] })
  else Except.error ApiError.validation

/-- Python truthiness of an optional string: `None` and `""` are falsy. -/
def truthyStr : Option String → Bool
  | none => false
  | some s => !(s == "")

/-- The outcome of one `requests` call: an exception (network failure,
timeout), or a response with a status code and a body; `none` as the body
means `resp.json()` raises (malformed body). -/
inductive HttpResult (β : Type) where
  | exc : HttpResult β
  | resp : Nat → Option β → HttpResult β
deriving DecidableEq, Repr

/-- The token-endpoint body: the value of its optional `access_token` field
(`resp.json().get("access_token")` yields `None` when absent). -/
abbrev TokenBody := Option String

/-- An artist entry of the currently-playing item (its `name` field; the code
reads `a.get("name")`). -/
structure SpotifyArtist where
  name : String
deriving DecidableEq, Repr

/-- The `album` object of the currently-playing item: `album.get("name")` and
the `url`s of its `images` entries. -/
structure SpotifyAlbum where
  name : Option String
  images : List String
deriving DecidableEq, Repr

/-- The `item` object of the playback-status body.  `item.get("album", {})`
yields `{}` when absent, modelled by `album = none` (whose `get("name")` is
then `None` and whose `images` are `[]`). -/
structure SpotifyItem where
  name : Option String
  artists : List SpotifyArtist
  album : Option SpotifyAlbum
  spotifyUrl : Option String
deriving DecidableEq, Repr

/-- The playback-status body: `data.get("is_playing", False)` and
`data.get("item")` — `item = none` also covers `data.get("item") or {}`
turning a falsy item into `{}`, which `if not item` then rejects. -/
structure PlayBody where
  is_playing : Bool
  item : Option SpotifyItem
deriving DecidableEq, Repr

/-- `get_spotify_access_token` (main.py lines 151-170): `None` unless all
three credentials are truthy, the POST succeeds with status 200, and its body
parses; then the optional `access_token` field. -/
def get_spotify_access_token (cid csec crt : Option String)
    (tokenResp : HttpResult TokenBody) : Option String :=
  if truthyStr cid && truthyStr csec && truthyStr crt then
    match tokenResp with
    | HttpResult.exc => none
    | HttpResult.resp status body =>
      if status = 200 then
        match body with
        | none => none
        | some tokenField => tokenField
      else none
  else none

/-- The `/api/now-playing` response: the degraded `{"isPlaying": False}` or
the full payload of main.py lines 198-205. -/
inductive NowPlayingResp where
  | notPlaying
  | playing (isPlaying : Bool) (title : Option String) (artist : String)
      (album : Option String) (albumImageUrl : Option String)
      (songUrl : Option String)
deriving DecidableEq, Repr

/-- `", ".join(...)` over the artist names. -/
def joinArtists (artists : List SpotifyArtist) : String :=
  String.intercalate ", " (artists.map SpotifyArtist.name)

/-- `now_playing` (main.py lines 172-207): falsy token → not playing; then one
playback-status call whose exception, 204, non-200, malformed body, or missing
item all degrade to not playing; otherwise the full payload. -/
def now_playing (cid csec crt : Option String)
    (tokenResp : HttpResult TokenBody) (playResp : HttpResult PlayBody) :
    NowPlayingResp :=
  match get_spotify_access_token cid csec crt tokenResp with
  | none => NowPlayingResp.notPlaying
  | some token =>
    if token = "" then NowPlayingResp.notPlaying
    else
      match playResp with
      | HttpResult.exc => NowPlayingResp.notPlaying
      | HttpResult.resp status body =>
        if status = 204 then NowPlayingResp.notPlaying
        else if status ≠ 200 then NowPlayingResp.notPlaying
        else
          match body with
          | none => NowPlayingResp.notPlaying
          | some data =>
            match data.item with
            | none => NowPlayingResp.notPlaying
            | some item =>
              NowPlayingResp.playing data.is_playing item.name
                (joinArtists item.artists)
                ((item.album.map SpotifyAlbum.name).join)
                (item.album.bind fun al => al.images.head?)
                item.spotifyUrl

/-- The two configuration values `/test` inspects. -/
structure Env where
  databaseUrl : Option String
  databaseName : Option String
deriving DecidableEq, Repr

/-- The store's observable condition during `/test`: handle `None`,
handle present but `list_collection_names()` raising (message `e`), or
working with the given collection names. -/
inductive DbState where
  | unavailable
  | availErr (e : String)
  | connected (collections : List String)
deriving DecidableEq, Repr

/-- The `/test` response dictionary (main.py lines 211-218). -/
structure TestResponse where
  backend : String
  database : String
  database_url : Option String
  database_name : Option String
  connection_status : String
  collections : List String
deriving DecidableEq, Repr

/-- `str(e)[:50]` — truncation of an error message. -/
def truncate50 (e : String) : String := String.mk (e.data.take 50)

/-- `test_database` (main.py lines 209-232): fills the response skeleton; when
the handle exists it marks the database available, reports whether
`DATABASE_URL` is set (never its value), reports `DATABASE_NAME or "Unknown"`
(its value!), then tries `list_collection_names()`, keeping the first 10 names
or recording the truncated error. -/
def test_database (env : Env) (dbs : DbState) : TestResponse :=
  match dbs with
  | DbState.unavailable =>
    { backend := "✅ Running", database := "❌ Not Available",
      database_url := none, database_name := none,
      connection_status := "Not Connected", collections := [] }
  | DbState.availErr e =>
    { backend := "✅ Running",
      database := "⚠️ Connected but Error: " ++ truncate50 e,
      database_url := some (if truthyStr env.databaseUrl then "✅ Set" else "❌ Not Set"),
      database_name := some (match env.databaseName with
        | some n => if n = "" then "Unknown" else n
        | none => "Unknown"),
      connection_status := "Not Connected", collections := [] }
  | DbState.connected cols =>
    { backend := "✅ Running", database := "✅ Connected & Working",
      database_url := some (if truthyStr env.databaseUrl then "✅ Set" else "❌ Not Set"),
      database_name := some (match env.databaseName with
        | some n => if n = "" then "Unknown" else n
        | none => "Unknown"),
      connection_status := "Not Connected", collections := cols.take 10 }

/-- The token refresh failing, as the spec enumerates it: network failure, a
non-success status, or a malformed response body. -/
def tokenRefreshFails (r : HttpResult TokenBody) : Prop :=
  r = HttpResult.exc ∨
    ∃ st b, r = HttpResult.resp st b ∧ (st ≠ 200 ∨ b = none)

/-- The playback-status call degrading, as the spec enumerates it: network
failure, a 204, any other non-200 status, a malformed body, or a 200 body
without a playable item. -/
def playbackDegraded (r : HttpResult PlayBody) : Prop :=
  r = HttpResult.exc ∨
    ∃ st b, r = HttpResult.resp st b ∧
      (st = 204 ∨ st ≠ 200 ∨ b = none ∨ ∃ d, b = some d ∧ d.item = none)

/-- A sample project payload used to instantiate the universally quantified
statements on concrete inputs. -/
def exProject : Project :=
  { name := "Demo", description := "demo", stack := [], github := none,
    live := none, featured := false, order := 0 }

/-- A sample empty store. -/
def exStore : Store := { projects := [], messages := [], nextId := 0 }

/-- A sample store holding one project document with identifier 0. -/
def exStore1 : Store :=
  { projects := [(0, exProject)], messages := [], nextId := 1 }

/-- A sample timestamp. -/
def exNow : PyDateTime :=
  { year := 2026, month := 10, day := 12, hour := 3, minute := 4, second := 5,
    microsecond := 6 }

/-- The 24-zero hex string, a syntactically valid store identifier denoting
identifier 0. -/
def exZeroId : Str := List.replicate 24 '0'

lemma toLower_ne_space {c d : Char} (hd : d.toLower = c) (hc : c ≠ ' ') : d ≠ ' ' := by
  intro h
  subst h
  apply hc
  rw [← hd]
  decide

lemma toLower_eq_space {c : Char} (h : c.toLower = ' ') : c = ' ' := by
  by_cases hr : c.toNat ≥ 65 ∧ c.toNat ≤ 90
  · exfalso
    simp only [Char.toLower] at h
    rw [if_pos hr] at h
    have hvalid : (c.toNat + 32).isValidChar := Or.inl (by omega)
    have htn : (Char.ofNat (c.toNat + 32)).toNat = c.toNat + 32 := by
      rw [Char.ofNat, dif_pos hvalid]
      rfl
    have hval := congrArg Char.toNat h
    rw [htn, show (' ' : Char).toNat = 32 from rfl] at hval
    omega
  · simp only [Char.toLower] at h
    rwa [if_neg hr] at h

/-- If the lowercased header starts with `"bearer "`, the first space of the
header is at index 6, so `split(" ", 1)[1]` is exactly the part of the header
after the 7-character `"Bearer "`-style prefix. -/
lemma splitOnceRest_eq_drop_seven {h : Str}
    (hb : startsWithL (pyLower h) bearerLit = true) :
    splitOnceRest h = h.drop 7 := by
  match h with
  | c0 :: c1 :: c2 :: c3 :: c4 :: c5 :: c6 :: rest =>
    simp only [pyLower, bearerLit, startsWithL, List.map, Bool.and_eq_true,
      beq_iff_eq] at hb
    obtain ⟨e0, e1, e2, e3, e4, e5, e6, -⟩ := hb
    have n0 := toLower_ne_space e0 (by decide)
    have n1 := toLower_ne_space e1 (by decide)
    have n2 := toLower_ne_space e2 (by decide)
    have n3 := toLower_ne_space e3 (by decide)
    have n4 := toLower_ne_space e4 (by decide)
    have n5 := toLower_ne_space e5 (by decide)
    have s6 := toLower_eq_space e6
    simp [splitOnceRest, n0, n1, n2, n3, n4, n5, s6]
  | [] => simp [pyLower, bearerLit, startsWithL] at hb
  | [c0] => simp [pyLower, bearerLit, startsWithL] at hb
  | [c0, c1] => simp [pyLower, bearerLit, startsWithL] at hb
  | [c0, c1, c2] => simp [pyLower, bearerLit, startsWithL] at hb
  | [c0, c1, c2, c3] => simp [pyLower, bearerLit, startsWithL] at hb
  | [c0, c1, c2, c3, c4] => simp [pyLower, bearerLit, startsWithL] at hb
  | [c0, c1, c2, c3, c4, c5] => simp [pyLower, bearerLit, startsWithL] at hb

lemma require_admin_true_iff (t : Str) (a : Option Str) :
    require_admin t a = true ↔ t ≠ [] ∧ adminTokenOf a = t := by
  unfold require_admin
  rw [Bool.and_eq_true, Bool.not_eq_true', List.isEmpty_eq_false, beq_iff_eq]

/-- `require_admin` authorizes exactly when the secret is non-empty, the header
is present, its lowercasing starts with `"bearer "`, and the part after the
7-character prefix equals the secret. -/
lemma require_admin_iff (t : Str) (a : Option Str) :
    require_admin t a = true ↔
      t ≠ [] ∧ ∃ h, a = some h ∧ startsWithL (pyLower h) bearerLit = true ∧
        h.drop 7 = t := by
  rw [require_admin_true_iff]
  cases a with
  | none =>
    constructor
    · rintro ⟨hne, htok⟩
      exact absurd htok.symm hne
    · rintro ⟨-, h, hcontra, -⟩
      cases hcontra
  | some hdr =>
    by_cases hc : (!hdr.isEmpty && startsWithL (pyLower hdr) bearerLit) = true
    · have hsw : startsWithL (pyLower hdr) bearerLit = true :=
        ((Bool.and_eq_true _ _).mp hc).2
      have htok : adminTokenOf (some hdr) = hdr.drop 7 := by
        simp only [adminTokenOf]
        rw [if_pos hc, splitOnceRest_eq_drop_seven hsw]
      rw [htok]
      constructor
      · rintro ⟨hne, hdrop⟩
        exact ⟨hne, hdr, rfl, hsw, hdrop⟩
      · rintro ⟨hne, h, heq, -, hdrop⟩
        cases heq
        exact ⟨hne, hdrop⟩
    · have htok : adminTokenOf (some hdr) = [] := by
        simp only [adminTokenOf]
        rw [if_neg hc]
      rw [htok]
      constructor
      · rintro ⟨hne, htok'⟩
        exact absurd htok'.symm hne
      · rintro ⟨hne, h, heq, hsw, -⟩
        cases heq
        exfalso
        apply hc
        rw [Bool.and_eq_true, Bool.not_eq_true', List.isEmpty_eq_false]
        refine ⟨?_, hsw⟩
        rintro rfl
        cases hsw

lemma mem_insertByOrder {x a : Nat × Project} {l : List (Nat × Project)} :
    x ∈ insertByOrder a l ↔ x = a ∨ x ∈ l := by
  induction l with
  | nil => simp [insertByOrder]
  | cons b l ih =>
    by_cases hab : a.2.order ≤ b.2.order
    · simp only [insertByOrder, if_pos hab, List.mem_cons]
    · simp only [insertByOrder, if_neg hab, List.mem_cons, ih]
      tauto

lemma pairwise_insertByOrder {a : Nat × Project} {l : List (Nat × Project)}
    (hl : List.Pairwise (fun x y => x.2.order ≤ y.2.order) l) :
    List.Pairwise (fun x y => x.2.order ≤ y.2.order) (insertByOrder a l) := by
  induction l with
  | nil => simp [insertByOrder]
  | cons b l ih =>
    rcases List.pairwise_cons.mp hl with ⟨hb, hl'⟩
    by_cases hab : a.2.order ≤ b.2.order
    · simp only [insertByOrder, if_pos hab]
      refine List.pairwise_cons.mpr ⟨?_, hl⟩
      intro y hy
      rcases List.mem_cons.mp hy with rfl | hy'
      · exact hab
      · exact le_trans hab (hb y hy')
    · simp only [insertByOrder, if_neg hab]
      refine List.pairwise_cons.mpr ⟨?_, ih hl'⟩
      intro y hy
      rcases mem_insertByOrder.mp hy with rfl | hy'
      · omega
      · exact hb y hy'

lemma sortByOrder_pairwise (l : List (Nat × Project)) :
    List.Pairwise (fun x y => x.2.order ≤ y.2.order) (sortByOrder l) := by
  induction l with
  | nil => simp [sortByOrder]
  | cons a l ih => exact pairwise_insertByOrder ih

lemma insertByOrder_perm (a : Nat × Project) (l : List (Nat × Project)) :
    (insertByOrder a l).Perm (a :: l) := by
  induction l with
  | nil => exact List.Perm.refl _
  | cons b l ih =>
    by_cases hab : a.2.order ≤ b.2.order
    · simp only [insertByOrder, if_pos hab]
      exact List.Perm.refl _
    · simp only [insertByOrder, if_neg hab]
      exact (ih.cons b).trans (List.Perm.swap a b l)

lemma sortByOrder_perm (l : List (Nat × Project)) : (sortByOrder l).Perm l := by
  induction l with
  | nil => exact List.Perm.refl _
  | cons a l ih => exact (insertByOrder_perm a (sortByOrder l)).trans (ih.cons a)

lemma filter_insertByOrder_eq {k : Int} {a : Nat × Project}
    (l : List (Nat × Project)) (ha : a.2.order = k) :
    (insertByOrder a l).filter (fun x => x.2.order == k) =
      a :: l.filter (fun x => x.2.order == k) := by
  induction l with
  | nil => simp [insertByOrder, List.filter_cons, ha]
  | cons b l ih =>
    by_cases hab : a.2.order ≤ b.2.order
    · simp only [insertByOrder, if_pos hab]
      simp [List.filter_cons, ha]
    · have hbk : ¬(b.2.order = k) := by omega
      simp only [insertByOrder, if_neg hab]
      simp [List.filter_cons, hbk, ih]

lemma filter_insertByOrder_ne {k : Int} {a : Nat × Project}
    (l : List (Nat × Project)) (ha : ¬ a.2.order = k) :
    (insertByOrder a l).filter (fun x => x.2.order == k) =
      l.filter (fun x => x.2.order == k) := by
  induction l with
  | nil => simp [insertByOrder, List.filter_cons, ha]
  | cons b l ih =>
    by_cases hab : a.2.order ≤ b.2.order
    · simp only [insertByOrder, if_pos hab]
      simp [List.filter_cons, ha]
    · simp only [insertByOrder, if_neg hab]
      simp [List.filter_cons, ih]

lemma filter_sortByOrder (k : Int) (l : List (Nat × Project)) :
    (sortByOrder l).filter (fun x => x.2.order == k) =
      l.filter (fun x => x.2.order == k) := by
  induction l with
  | nil => rfl
  | cons a l ih =>
    by_cases ha : a.2.order = k
    · rw [sortByOrder, filter_insertByOrder_eq _ ha, ih, List.filter_cons]
      simp [ha]
    · rw [sortByOrder, filter_insertByOrder_ne _ ha, ih, List.filter_cons]
      simp [ha]

lemma update_one_filter_ne (oid : Nat) (p : Project) :
    ∀ l : List (Nat × Project),
      (update_one l oid p).1.filter (fun x => !(x.1 == oid)) =
        l.filter (fun x => !(x.1 == oid))
  | [] => rfl
  | (i, q) :: l => by
    by_cases h : i = oid
    · subst h
      simp [update_one, List.filter_cons]
    · simp [update_one, h, List.filter_cons, update_one_filter_ne oid p l]

lemma delete_one_filter_ne (oid : Nat) :
    ∀ l : List (Nat × Project),
      (delete_one l oid).1.filter (fun x => !(x.1 == oid)) =
        l.filter (fun x => !(x.1 == oid))
  | [] => rfl
  | (i, q) :: l => by
    by_cases h : i = oid
    · subst h
      simp [delete_one, List.filter_cons]
    · simp [delete_one, h, List.filter_cons, delete_one_filter_ne oid l]

lemma update_one_replaces (oid : Nat) (p q : Project) (l2 : List (Nat × Project)) :
    ∀ l1 : List (Nat × Project), (∀ x ∈ l1, x.1 ≠ oid) →
      update_one (l1 ++ (oid, q) :: l2) oid p = (l1 ++ (oid, p) :: l2, 1)
  | [], _ => by simp [update_one]
  | (i, r) :: l1, hl => by
    have hi : i ≠ oid := hl (i, r) (List.mem_cons_self _ _)
    have ih := update_one_replaces oid p q l2 l1
      (fun x hx => hl x (List.mem_cons_of_mem _ hx))
    simp [update_one, hi, ih]

/-- C1: a request to a gated endpoint (create, update, delete) is authorized
iff a non-empty admin secret is configured, the Authorization header is
present, begins with the case-insensitive prefix `"Bearer "`, and its
remainder after that 7-character prefix equals the secret; when the gate
refuses, each gated endpoint yields the 401 error and the store is not
mutated. -/
theorem claim_c1_access_gate (t : Str) (a : Option Str) (p : Project)
    (pid : Str) (s : Store) :
    (require_admin t a = true ↔
      t ≠ [] ∧ ∃ h, a = some h ∧ startsWithL (pyLower h) bearerLit = true ∧
        h.drop 7 = t) ∧
    (require_admin t a = false →
      create_project t a p s = Except.error ApiError.unauthorized ∧
      update_project t a pid p s = Except.error ApiError.unauthorized ∧
      delete_project t a pid s = Except.error ApiError.unauthorized ∧
      resultStore (create_project t a p s) s = s ∧
      resultStore (update_project t a pid p s) s = s ∧
      resultStore (delete_project t a pid s) s = s) := by
  refine ⟨require_admin_iff t a, fun hf => ?_⟩
  have h1 : create_project t a p s = Except.error ApiError.unauthorized := by
    simp [create_project, hf]
  have h2 : update_project t a pid p s = Except.error ApiError.unauthorized := by
    simp [update_project, hf]
  have h3 : delete_project t a pid s = Except.error ApiError.unauthorized := by
    simp [delete_project, hf]
  exact ⟨h1, h2, h3, by rw [h1]; rfl, by rw [h2]; rfl, by rw [h3]; rfl⟩

theorem claim_c1_access_gate_witness :
    require_admin "secret".data (some "Bearer wrong".data) = false ∧
    update_project "secret".data (some "Bearer wrong".data) exZeroId exProject
        exStore1 = Except.error ApiError.unauthorized :=
  ⟨by decide,
   ((claim_c1_access_gate "secret".data (some "Bearer wrong".data) exProject
      exZeroId exStore1).2 (by decide)).2.1⟩

/-- C4, counterexample: a PUT whose id is syntactically invalid but whose
bearer gate fails yields 401, not 400 — the gate dependency runs before the
id check, so the claimed "regardless of gate status" fails. -/
theorem claim_c4_counterexample :
    objectId_is_valid "zzz".data = false ∧
    update_project "secret".data none "zzz".data exProject exStore1 =
      Except.error ApiError.unauthorized ∧
    update_project "secret".data none "zzz".data exProject exStore1 ≠
      Except.error ApiError.badRequest ∧
    delete_project "secret".data none "zzz".data exStore1 =
      Except.error ApiError.unauthorized := by
  refine ⟨by decide, by decide, by decide, by decide⟩

/-- C4, amended: for requests that pass the bearer gate, an update or delete
whose id path parameter is not a syntactically legal store identifier yields
the bad-request (400) error; when the gate fails, the 401 error is produced
first instead. -/
theorem claim_c4_amended (t : Str) (a : Option Str) (pid : Str) (p : Project)
    (s : Store) (hauth : require_admin t a = true)
    (hid : objectId_is_valid pid = false) :
    update_project t a pid p s = Except.error ApiError.badRequest ∧
    delete_project t a pid s = Except.error ApiError.badRequest := by
  constructor
  · simp [update_project, hauth, hid]
  · simp [delete_project, hauth, hid]

theorem claim_c4_amended_witness :
    require_admin "secret".data (some "Bearer secret".data) = true ∧
    objectId_is_valid "zzz".data = false ∧
    update_project "secret".data (some "Bearer secret".data) "zzz".data
        exProject exStore1 = Except.error ApiError.badRequest :=
  ⟨by decide, by decide,
   (claim_c4_amended "secret".data (some "Bearer secret".data) "zzz".data
      exProject exStore1 (by decide) (by decide)).1⟩

/-- C8: with the store handle absent (`db is None`), the listing endpoint does
not return an empty sequence: `ensure_seed_projects` returns silently but the
unguarded `db["project"]` subscript raises, an uncaught exception (HTTP 500).
This contradicts the claim/spec, which promise an empty sequence — the guard
present in `ensure_seed_projects` and `/test` shows tolerating `db is None`
is the intent, so the missing guard in `list_projects` is a code bug. -/
theorem claim_c8_unreachable_store_raises :
    list_projects none = Except.error ApiError.internalError := rfl

lemma toProjectOut_order (x : Nat × Project) :
    (toProjectOut x).order = x.2.order := by
  rcases x with ⟨i, p⟩
  rfl

/-- C2: for every store state, listing returns all project records (after the
seeding pass) as a sequence that is non-decreasing in `order`, and for equal
`order` values the store insertion order is preserved (the records of any
given `order` appear exactly as they do in the stored collection). -/
theorem claim_c2_listing_sorted_stable (s : Store) :
    list_projects (some s) =
      Except.ok (seedStore s,
        (sortByOrder (seedStore s).projects).map toProjectOut) ∧
    ((sortByOrder (seedStore s).projects).map toProjectOut).Perm
      ((seedStore s).projects.map toProjectOut) ∧
    List.Pairwise (fun x y => x.order ≤ y.order)
      ((sortByOrder (seedStore s).projects).map toProjectOut) ∧
    ∀ k : Int,
      ((sortByOrder (seedStore s).projects).map toProjectOut).filter
          (fun x => x.order == k) =
        ((seedStore s).projects.map toProjectOut).filter
          (fun x => x.order == k) := by
  refine ⟨rfl, (sortByOrder_perm _).map toProjectOut, ?_, ?_⟩
  · refine List.pairwise_map.mpr ?_
    exact (sortByOrder_pairwise (seedStore s).projects).imp
      (fun {x y} h => by
        rw [toProjectOut_order, toProjectOut_order]
        exact h)
  · intro k
    have hfun : ((fun x : ProjectOut => x.order == k) ∘ toProjectOut) =
        (fun x : Nat × Project => x.2.order == k) := by
      funext x
      rcases x with ⟨i, p⟩
      rfl
    rw [List.filter_map, List.filter_map, hfun, filter_sortByOrder]

/-- C3: when the project collection is empty, the first listing invocation
leaves exactly the four seed projects in the collection (with fresh
store-assigned identifiers), and a second invocation finds the collection
non-empty and does not insert them again. -/
theorem claim_c3_seeding_once (s : Store) (h : s.projects = []) :
    (seedStore s).projects =
      [(s.nextId, seedSarepay), (s.nextId + 1, seedPiper),
       (s.nextId + 2, seedGridman), (s.nextId + 3, seedMonitraka)] ∧
    (seedStore s).projects.map Prod.snd = SEED_PROJECTS ∧
    list_projects (some s) =
      Except.ok (seedStore s,
        (sortByOrder (seedStore s).projects).map toProjectOut) ∧
    ensure_seed_projects (some (seedStore s)) = some (seedStore s) := by
  rcases s with ⟨ps, ms, n⟩
  have h' : ps = [] := h
  subst h'
  refine ⟨rfl, rfl, rfl, rfl⟩

theorem claim_c3_seeding_once_witness :
    (seedStore exStore).projects.map Prod.snd = SEED_PROJECTS ∧
    ensure_seed_projects (some (seedStore exStore)) = some (seedStore exStore) :=
  ⟨(claim_c3_seeding_once exStore rfl).2.1,
   (claim_c3_seeding_once exStore rfl).2.2.2⟩

/-- C5: an authorized update with a valid id that matches a stored record
replaces that record wholesale: afterwards the matched record is exactly the
supplied payload under the unchanged identifier, nothing of the old record
surviving. -/
theorem claim_c5_update_replaces (t : Str) (a : Option Str) (pid : Str)
    (p q : Project) (s : Store) (l1 l2 : List (Nat × Project))
    (hauth : require_admin t a = true)
    (hvalid : objectId_is_valid pid = true)
    (hsplit : s.projects = l1 ++ (objectIdOfHex pid, q) :: l2)
    (hfirst : ∀ x ∈ l1, x.1 ≠ objectIdOfHex pid) :
    update_project t a pid p s =
      Except.ok ({ s with projects := l1 ++ (objectIdOfHex pid, p) :: l2 },
        true) := by
  unfold update_project
  rw [hauth, if_pos rfl, if_pos hvalid, hsplit,
    update_one_replaces (objectIdOfHex pid) p q l2 l1 hfirst]
  rfl

theorem claim_c5_update_replaces_witness :
    update_project "secret".data (some "Bearer secret".data) exZeroId
        { exProject with name := "Replaced" } exStore1 =
      Except.ok ({ exStore1 with
        projects := [] ++ (objectIdOfHex exZeroId,
          { exProject with name := "Replaced" }) :: [] }, true) :=
  claim_c5_update_replaces "secret".data (some "Bearer secret".data) exZeroId
    { exProject with name := "Replaced" } exProject exStore1 [] []
    (by decide) (by decide) (by decide) (by simp)

/-- C10: an authorized update or delete touches at most the record whose
identifier equals the requested id — every record with a different identifier
is kept, in order, and the message collection is untouched, whatever branch
(success, 400, 404) the request takes. -/
theorem claim_c10_mutation_frame (t : Str) (a : Option Str) (pid : Str)
    (p : Project) (s : Store) (hauth : require_admin t a = true) :
    (resultStore (update_project t a pid p s) s).messages = s.messages ∧
    (resultStore (update_project t a pid p s) s).projects.filter
        (fun x => !(x.1 == objectIdOfHex pid)) =
      s.projects.filter (fun x => !(x.1 == objectIdOfHex pid)) ∧
    (resultStore (delete_project t a pid s) s).messages = s.messages ∧
    (resultStore (delete_project t a pid s) s).projects.filter
        (fun x => !(x.1 == objectIdOfHex pid)) =
      s.projects.filter (fun x => !(x.1 == objectIdOfHex pid)) := by
  unfold update_project delete_project
  rw [hauth]
  by_cases hv : objectId_is_valid pid = true
  · rw [if_pos rfl, if_pos hv, if_pos rfl, if_pos hv]
    by_cases hu : (update_one s.projects (objectIdOfHex pid) p).2 = 0
    · by_cases hd : (delete_one s.projects (objectIdOfHex pid)).2 = 0
      · rw [if_pos hu, if_pos hd]
        exact ⟨rfl, rfl, rfl, rfl⟩
      · rw [if_pos hu, if_neg hd]
        exact ⟨rfl, rfl, rfl, delete_one_filter_ne _ _⟩
    · by_cases hd : (delete_one s.projects (objectIdOfHex pid)).2 = 0
      · rw [if_neg hu, if_pos hd]
        exact ⟨rfl, update_one_filter_ne _ _ _, rfl, rfl⟩
      · rw [if_neg hu, if_neg hd]
        exact ⟨rfl, update_one_filter_ne _ _ _, rfl, delete_one_filter_ne _ _⟩
  · rw [if_pos rfl, if_neg hv, if_pos rfl, if_neg hv]
    exact ⟨rfl, rfl, rfl, rfl⟩

theorem claim_c10_mutation_frame_witness :
    require_admin "secret".data (some "Bearer secret".data) = true ∧
    (resultStore (update_project "secret".data (some "Bearer secret".data)
        exZeroId exProject exStore1) exStore1).messages = exStore1.messages :=
  ⟨by decide,
   (claim_c10_mutation_frame "secret".data (some "Bearer secret".data)
      exZeroId exProject exStore1 (by decide)).1⟩

lemma get_token_none_of_fails (cid csec crt : Option String)
    {tr : HttpResult TokenBody} (h : tokenRefreshFails tr) :
    get_spotify_access_token cid csec crt tr = none := by
  rcases h with rfl | ⟨st, b, rfl, hc⟩
  · simp [get_spotify_access_token]
  · rcases hc with hst | rfl
    · simp [get_spotify_access_token, hst]
    · simp [get_spotify_access_token]

lemma now_playing_notPlaying_token_none (cid csec crt : Option String)
    {tr : HttpResult TokenBody} (pr : HttpResult PlayBody)
    (h : get_spotify_access_token cid csec crt tr = none) :
    now_playing cid csec crt tr pr = NowPlayingResp.notPlaying := by
  simp [now_playing, h]

lemma now_playing_notPlaying_play (cid csec crt : Option String)
    (tr : HttpResult TokenBody) {pr : HttpResult PlayBody}
    (h : playbackDegraded pr) :
    now_playing cid csec crt tr pr = NowPlayingResp.notPlaying := by
  cases htok : get_spotify_access_token cid csec crt tr with
  | none => simp [now_playing, htok]
  | some token =>
    by_cases ht : token = ""
    · simp [now_playing, htok, ht]
    · rcases h with rfl | ⟨st, b, rfl, hc⟩
      · simp [now_playing, htok, ht]
      · rcases hc with h204 | h200 | rfl | ⟨d, rfl, hitem⟩
        · simp [now_playing, htok, ht, h204]
        · simp [now_playing, htok, ht, h200]
        · by_cases h204 : st = 204
          · simp [now_playing, htok, ht, h204]
          · by_cases h200 : st = 200
            · simp [now_playing, htok, ht, h204, h200]
            · simp [now_playing, htok, ht, h204, h200]
        · by_cases h204 : st = 204
          · simp [now_playing, htok, ht, h204]
          · by_cases h200 : st = 200
            · simp [now_playing, htok, ht, h204, h200, hitem]
            · simp [now_playing, htok, ht, h204, h200]

/-- C7: the now-playing proxy degrades to `{isPlaying: false}` whenever a
credential is unset (falsy), the token refresh fails (network failure,
non-success status, malformed body), or the playback-status call degrades
(network failure, 204, other non-200, malformed body, or no playable item);
being a total function of the provider behaviour, it propagates no error. -/
theorem claim_c7_now_playing_degrades (cid csec crt : Option String)
    (tr : HttpResult TokenBody) (pr : HttpResult PlayBody)
    (h : truthyStr cid = false ∨ truthyStr csec = false ∨
      truthyStr crt = false ∨ tokenRefreshFails tr ∨ playbackDegraded pr) :
    now_playing cid csec crt tr pr = NowPlayingResp.notPlaying := by
  rcases h with hc | hc | hc | hc | hc
  · exact now_playing_notPlaying_token_none cid csec crt pr
      (by simp [get_spotify_access_token, hc])
  · exact now_playing_notPlaying_token_none cid csec crt pr
      (by simp [get_spotify_access_token, hc])
  · exact now_playing_notPlaying_token_none cid csec crt pr
      (by simp [get_spotify_access_token, hc])
  · exact now_playing_notPlaying_token_none cid csec crt pr
      (get_token_none_of_fails cid csec crt hc)
  · exact now_playing_notPlaying_play cid csec crt tr hc

theorem claim_c7_now_playing_degrades_witness :
    now_playing none none none HttpResult.exc HttpResult.exc =
      NowPlayingResp.notPlaying :=
  claim_c7_now_playing_degrades none none none HttpResult.exc HttpResult.exc
    (Or.inl rfl)

/-- C6: a contact submission with the malformed email `"not-an-email"` is
rejected by validation with nothing persisted, while a submission with a
valid email appends exactly one `Message` record with the given fields and
acknowledges with a `received_at` that is the ISO timestamp with the literal
suffix `"Z"`. -/
theorem claim_c6_contact (s : Store) (now : PyDateTime) (nm : String)
    (email : Str) (msg : String) (hv : emailValid email = true) :
    contact s now nm "not-an-email".data msg =
      Except.error ApiError.validation ∧
    contact s now nm email msg =
      Except.ok ({ s with
          messages := s.messages ++
            [(s.nextId, { name := nm, email := email, message := msg })],
          nextId := s.nextId + 1 },
        { ok := true, received_at := isoformat now ++ ['Z'] }) ∧
    ['Z'] <:+ (isoformat now ++ ['Z']) := by
  refine ⟨?_, ?_, ⟨isoformat now, rfl⟩⟩
  · have hbad : emailValid "not-an-email".data = false := by decide
    simp [contact, hbad]
  · simp [contact, hv, create_document_message]

theorem claim_c6_contact_witness :
    emailValid "ada@example.com".data = true ∧
    contact exStore exNow "Ada" "ada@example.com".data "hello" =
      Except.ok ({ exStore with
          messages := exStore.messages ++
            [(exStore.nextId,
              { name := "Ada", email := "ada@example.com".data, message := "hello" })],
          nextId := exStore.nextId + 1 },
        { ok := true, received_at := isoformat exNow ++ ['Z'] }) :=
  ⟨by decide,
   (claim_c6_contact exStore exNow "Ada" "ada@example.com".data "hello"
      (by decide)).2.1⟩

/-- C9, counterexample: the diagnostics endpoint does not keep the two
configuration values unrevealed — `database_name` carries the configured
database name verbatim, so two environments differing only in (non-empty)
configured values produce different responses. -/
theorem claim_c9_counterexample :
    test_database
        { databaseUrl := some "mongodb://h1/db", databaseName := some "alpha" }
        (DbState.connected []) ≠
      test_database
        { databaseUrl := some "mongodb://h2/db", databaseName := some "beta" }
        (DbState.connected []) := by
  decide

/-- C9, amended: the diagnostics endpoint reports only whether the store
connection string is set, never its value — environments that differ only in
which non-empty connection string is configured are indistinguishable — but
it reports the configured database name itself (or `"Unknown"`), so
environments with different database names are distinguishable. -/
theorem claim_c9_amended (u1 u2 : String) (nm : Option String) (dbs : DbState)
    (h1 : u1 ≠ "") (h2 : u2 ≠ "") :
    test_database { databaseUrl := some u1, databaseName := nm } dbs =
      test_database { databaseUrl := some u2, databaseName := nm } dbs := by
  cases dbs <;> simp [test_database, truthyStr, beq_iff_eq, h1, h2]

theorem claim_c9_amended_witness :
    test_database
        { databaseUrl := some "mongodb://h1/db", databaseName := some "db" }
        (DbState.connected ["project"]) =
      test_database
        { databaseUrl := some "mongodb://h2/db", databaseName := some "db" }
        (DbState.connected ["project"]) :=
  claim_c9_amended "mongodb://h1/db" "mongodb://h2/db" (some "db")
    (DbState.connected ["project"]) (by decide) (by decide)
